import Mathlib

/-!
Verification of `khodkar-cli` against its specification.

The repository's single source file is `src/cli/commands.ts`, the CLI entry
point (`KhodkarCLI`).  We give a shallow embedding of `handleAnalyzeCommand`,
`run` and `handleError`: the external collaborators (`McpManager`,
`LLMProcessor`, `OutputFormatter`, the zod schemas living in `../types`) are
represented by an environment record of fallible results, JavaScript
exceptions become `Except`, and every effectful call the method performs is
recorded in an ordered event trace so that call ordering and call counts can
be stated and proved.
-/

/-- A JavaScript number as produced by `parseInt` on a CLI option value:
either `NaN` (non-numeric input) or an integer. -/
inductive JSNum
  | nan
  | int (n : Int)
deriving DecidableEq, Repr

/-- JavaScript truthiness-based defaulting `x || d`: `undefined` (`none`),
`NaN` and `0` are falsy and select the default. -/
def jsOr (x : Option JSNum) (d : Int) : Int :=
  match x with
  | none => d
  | some JSNum.nan => d
  | some (JSNum.int n) => if n = 0 then d else n

/-- The parsed CLI options of the `analyze` command, as declared in
`setupCommands` (commands.ts lines 37–57): required `directory`, `output`,
`llm-base-url`, `llm-api-key`, `llm-model`; optional `format` (default
`'markdown'`), `verbose` (default `false`), `llm-max-tokens` and
`llm-max-steps` (both run through `parseInt`, so absent or `NaN`-valued). -/
structure CLIOptions where
  directory : String
  output : String
  llmBaseUrl : String
  llmApiKey : String
  llmModel : String
  format : String
  verbose : Bool
  llmMaxTokens : Option JSNum
  llmMaxSteps : Option JSNum
deriving DecidableEq, Repr

/-- The LLM configuration value constructed in `handleAnalyzeCommand`
(commands.ts lines 75–80).  The object literal there has exactly the four
fields `baseUrl`, `apiKey`, `model` and `maxSteps` (the `LLMConfig` type
itself lives in `../types`, which is not under `src/`). -/
structure LLMConfig where
  baseUrl : String
  apiKey : String
  model : String
  maxSteps : Int
deriving DecidableEq, Repr

/-- The `llmConfig` object literal built in `handleAnalyzeCommand`
(lines 75–80); `maxSteps: options.llmMaxSteps || 50` uses JS truthiness. -/
def mkLLMConfig (options : CLIOptions) : LLMConfig :=
  { baseUrl := options.llmBaseUrl
    apiKey := options.llmApiKey
    model := options.llmModel
    maxSteps := jsOr options.llmMaxSteps 50 }

/-- Modelled from the spec: `LLMConfigSchema` lives in `../types`, which is
not under `src/`. §6 of the spec gives the validated range for the step
budget: `maxSteps (10–500)`.  `parse` succeeds or throws a message. -/
def llmConfigParse (cfg : LLMConfig) : Except String Unit :=
  if cfg.maxSteps < 10 ∨ cfg.maxSteps > 500 then
    Except.error "maxSteps must be between 10 and 500"
  else
    Except.ok ()

/-- Modelled from the spec: a source reference of a business rule,
`{filePath, lineRange?}` (spec §3). -/
structure SourceRef where
  filePath : String
  lineRange : Option (Nat × Nat)
deriving DecidableEq, Repr

/-- Modelled from the spec: `BusinessRule` from `../types` is not under
`src/`; spec §3 gives `{id, title, description, category, priority,
userFacing, source references}`.  `priority` is kept as a string because the
code compares it with `rule.priority === 'high'` (line 128). -/
structure BusinessRule where
  id : String
  title : String
  description : String
  category : String
  priority : String
  userFacing : Bool
  sourceRefs : List SourceRef
deriving DecidableEq, Repr

/-- The summary counts of an analysis result (commands.ts lines 126–130). -/
structure Summary where
  totalRules : Nat
  highPriorityRules : Nat
  userFacingRules : Nat
deriving DecidableEq, Repr

/-- The analysis result record (commands.ts lines 123–131). -/
structure AnalysisResult where
  analysisDate : String
  businessRules : List BusinessRule
  summary : Summary
deriving DecidableEq, Repr

/-- The `analysisResult` object literal of `handleAnalyzeCommand`
(lines 123–131): the summary fields are computed by filtering the
`businessRules` list that `llmProcessor.analyze` returned. -/
def mkAnalysisResult (analysisDate : String) (businessRules : List BusinessRule) :
    AnalysisResult :=
  { analysisDate := analysisDate
    businessRules := businessRules
    summary :=
      { totalRules := businessRules.length
        highPriorityRules := (businessRules.filter (fun rule => rule.priority == "high")).length
        userFacingRules := (businessRules.filter (fun rule => rule.userFacing)).length } }

/-- Modelled from the spec: a tool definition, `{name, description, input
schema, owning server identifier}` (spec §3); `McpManager` is not under
`src/`. -/
structure Tool where
  name : String
  description : String
  inputSchema : String
  serverId : String
deriving DecidableEq, Repr

/-- The error values thrown by collaborators, mirroring the three branches of
`handleError` (commands.ts lines 175–192): `LLMAnalysisError` with an
optional `details.filePath`, `MCPServerError` with an optional
`details.serverName`, and any other `Error`. -/
inductive JSError
  | llmAnalysis (msg : String) (filePath : Option String)
  | mcpServer (msg : String) (serverName : Option String)
  | generic (msg : String)
deriving DecidableEq, Repr

/-- The `.message` property of a thrown error. -/
def JSError.message : JSError → String
  | JSError.llmAnalysis m _ => m
  | JSError.mcpServer m _ => m
  | JSError.generic m => m

/-- The `details.serverName` carried by an `MCPServerError`, `none`
otherwise. -/
def JSError.serverName : JSError → Option String
  | JSError.mcpServer _ s => s
  | _ => none

/-- Commander applies an option's declared default when the option is
omitted; the `--format` option is declared with default `'markdown'`
(commands.ts line 51). -/
def formatOrDefault (supplied : Option String) : String :=
  supplied.getD "markdown"

/-- One effectful call performed by `handleAnalyzeCommand` / `handleError`,
recorded in order.  `consoleLog` is stdout, `consoleError` is stderr (chalk
coloring is display-only and dropped), `processExit` is `process.exit`. -/
inductive Event
  | createProcessor (cfg : LLMConfig)
  | progressStart (msg : String)
  | progressPhase (phase : String) (msg : String)
  | progressSucceed (msg : String)
  | consoleLog (s : String)
  | consoleError (s : String)
  | initServersCall
  | getToolsCall
  | analyzeCall (tools : List Tool)
  | formatAndSaveCall (result : AnalysisResult) (outputPath : String) (format : String)
  | cleanupCall
  | shutdownServersCall
  | processExit (code : Nat)
deriving DecidableEq, Repr

/-- The external collaborators of `handleAnalyzeCommand`, each represented by
the outcome it produces on this run: `CLIOptionsSchema.parse` on the raw
options (the schema lives in `../types`, not under `src/`), the `McpManager`
methods, the `LLMProcessor` methods, `OutputFormatter.formatAndSave`, and
`new Date().toISOString()`. -/
structure Env where
  parseOptions : Except JSError CLIOptions
  initServers : Except JSError Unit
  getTools : Except JSError (List Tool)
  analyze : List Tool → Except JSError (List BusinessRule)
  formatAndSave : AnalysisResult → String → String → Except JSError Unit
  cleanup : Except JSError Unit
  shutdownServers : Except JSError Unit
  now : String

/-- Shallow embedding of `KhodkarCLI.handleAnalyzeCommand` (commands.ts
lines 70–164).  Returns the ordered trace of effectful calls together with
the outcome: `Except.ok ()` for normal return, `Except.error e` for a thrown
error.  The `try`/`catch` around the analysis body (lines 98 and 157–163) is
commented out in the source, so every thrown error propagates to the caller
and the statements after the throwing one — including the cleanup calls on
lines 155–156 — are skipped. -/
def handleAnalyzeCommand (env : Env) : List Event × Except JSError Unit :=
  match env.parseOptions with
  | Except.error e =>
      ([], Except.error (JSError.generic ("Invalid options: " ++ e.message)))
  | Except.ok options =>
    let llmConfig := mkLLMConfig options
    match llmConfigParse llmConfig with
    | Except.error m =>
        ([], Except.error (JSError.generic ("LLM Configuration Error: " ++ m)))
    | Except.ok _ =>
      let verboseIntro : List Event :=
        if options.verbose then
          [Event.consoleLog "🔍 Starting business rules analysis...",
           Event.consoleLog ("Directory: " ++ options.directory),
           Event.consoleLog ("Output: " ++ options.output),
           Event.consoleLog ("Format: " ++ options.format)]
        else []
      let t1 : List Event :=
        [Event.createProcessor llmConfig,
         Event.progressStart "Initializing analysis..."] ++ verboseIntro ++
        [Event.progressPhase "scanning" "Initializing MCP servers...",
         Event.initServersCall]
      match env.initServers with
      | Except.error e => (t1, Except.error e)
      | Except.ok _ =>
        let t2 := t1 ++
          [Event.progressPhase "analyzing" "Analyzing codebase with LLM...",
           Event.getToolsCall]
        match env.getTools with
        | Except.error e => (t2, Except.error e)
        | Except.ok tools =>
          let t3 := t2 ++ [Event.analyzeCall tools]
          match env.analyze tools with
          | Except.error e => (t3, Except.error e)
          | Except.ok businessRules =>
            let verboseCount : List Event :=
              if options.verbose then
                [Event.consoleLog
                  ("✓ Extracted " ++ toString businessRules.length ++ " business rules")]
              else []
            let analysisResult := mkAnalysisResult env.now businessRules
            let t4 := t3 ++ verboseCount ++
              [Event.progressPhase "formatting" "Formatting output...",
               Event.formatAndSaveCall analysisResult options.output options.format]
            match env.formatAndSave analysisResult options.output options.format with
            | Except.error e => (t4, Except.error e)
            | Except.ok _ =>
              let t5 := t4 ++
                [Event.progressSucceed "Analysis complete!",
                 Event.consoleLog "✅ Analysis complete!",
                 Event.consoleLog ("📄 Output saved to: " ++ options.output),
                 Event.consoleLog "\nSummary:",
                 Event.consoleLog
                   ("  • Business rules extracted: " ++
                     toString analysisResult.summary.totalRules),
                 Event.consoleLog
                   ("  • High priority rules: " ++
                     toString analysisResult.summary.highPriorityRules),
                 Event.consoleLog
                   ("  • User-facing rules: " ++
                     toString analysisResult.summary.userFacingRules),
                 Event.cleanupCall]
              match env.cleanup with
              | Except.error e => (t5, Except.error e)
              | Except.ok _ =>
                let t6 := t5 ++ [Event.shutdownServersCall]
                match env.shutdownServers with
                | Except.error e => (t6, Except.error e)
                | Except.ok _ => (t6, Except.ok ())

/-- Shallow embedding of `KhodkarCLI.run` (commands.ts lines 60–68) applied
to an invocation of the `analyze` command: `program.parseAsync` dispatches to
the `analyze` action, which awaits `handleAnalyzeCommand`.  The `try`/`catch`
of `run` is commented out in the source, so the error — if any — propagates
unchanged and nothing is printed and no exit code is set by `run` itself. -/
def KhodkarCLI.run (env : Env) : List Event × Except JSError Unit :=
  handleAnalyzeCommand env

/-- Shallow embedding of `KhodkarCLI.handleError` (commands.ts
lines 175–192): the trace of console-error prints and the final
`process.exit(1)`.  Note that no live code path of the class reaches this
method — both call sites are commented out. -/
def handleError (e : JSError) : List Event :=
  (match e with
   | JSError.llmAnalysis msg filePath =>
       [Event.consoleError ("LLM analysis error: " ++ msg)] ++
       (match filePath with
        | some p => [Event.consoleError ("File: " ++ p)]
        | none => [])
   | JSError.mcpServer msg serverName =>
       [Event.consoleError ("MCP server error: " ++ msg)] ++
       (match serverName with
        | some s => [Event.consoleError ("Server: " ++ s)]
        | none => [])
   | JSError.generic msg =>
       [Event.consoleError ("Unexpected error: " ++ msg)]) ++
  [Event.processExit 1]

/-- A fully valid set of options with every optional option omitted, used as
a concrete test input. -/
def optsBase : CLIOptions :=
  { directory := "/repo"
    output := "rules.md"
    llmBaseUrl := "https://api.openai.com/v1"
    llmApiKey := "sk-test"
    llmModel := "gpt-4"
    format := "markdown"
    verbose := false
    llmMaxTokens := none
    llmMaxSteps := none }

/-- An environment in which every collaborator succeeds and the LLM returns
no rules. -/
def envHappy : Env :=
  { parseOptions := Except.ok optsBase
    initServers := Except.ok ()
    getTools := Except.ok []
    analyze := fun _ => Except.ok []
    formatAndSave := fun _ _ _ => Except.ok ()
    cleanup := Except.ok ()
    shutdownServers := Except.ok ()
    now := "2026-10-11T00:00:00.000Z" }

/-- An environment in which `llmProcessor.analyze` rejects with an
`LLMAnalysisError` and everything else would succeed. -/
def envAnalyzeFails : Env :=
  { envHappy with
    analyze := fun _ => Except.error (JSError.llmAnalysis "model refused" none) }

/-- An environment in which `mcpManager.initializeServers` rejects with an
`MCPServerError` naming the failing server. -/
def envDiscoveryFails : Env :=
  { envHappy with
    initServers := Except.error (JSError.mcpServer "connection refused" (some "filesystem")) }

/-- `true` on the events whose presence C1 asserts: a stderr print or a
`process.exit`. -/
def isErrorReport (e : Event) : Bool :=
  match e with
  | Event.consoleError _ => true
  | Event.processExit _ => true
  | _ => false

/-- `true` exactly on `analyzeCall` events. -/
def isAnalyzeCall (e : Event) : Bool :=
  match e with
  | Event.analyzeCall _ => true
  | _ => false

/-- `true` exactly on `initServersCall` events. -/
def isInitServersCall (e : Event) : Bool :=
  match e with
  | Event.initServersCall => true
  | _ => false

/-- `true` exactly on the two resource-release events, `cleanupCall` and
`shutdownServersCall`. -/
def isReleaseCall (e : Event) : Bool :=
  match e with
  | Event.cleanupCall => true
  | Event.shutdownServersCall => true
  | _ => false

/-- `true` exactly on `getToolsCall` events. -/
def isGetToolsCall (e : Event) : Bool :=
  match e with
  | Event.getToolsCall => true
  | _ => false

/-- An environment in which `formatter.formatAndSave` rejects. -/
def envSaveFails : Env :=
  { envHappy with
    formatAndSave := fun _ _ _ => Except.error (JSError.generic "EACCES: permission denied") }

/-- A high-priority, user-facing rule used as concrete test data. -/
def ruleHigh : BusinessRule :=
  { id := "BR-1"
    title := "Refund window"
    description := "Refunds are accepted within 30 days"
    category := "payments"
    priority := "high"
    userFacing := true
    sourceRefs := [{ filePath := "src/refunds.ts", lineRange := some (10, 20) }] }

/-- A low-priority, internal rule used as concrete test data. -/
def ruleLow : BusinessRule :=
  { id := "BR-2"
    title := "Audit retention"
    description := "Audit logs are kept for one year"
    category := "compliance"
    priority := "low"
    userFacing := false
    sourceRefs := [] }

/-- A two-element rule list used as concrete test data. -/
def rulesPair : List BusinessRule := [ruleHigh, ruleLow]

/-- An environment in which the LLM returns `rulesPair`. -/
def envRules : Env :=
  { envHappy with analyze := fun _ => Except.ok rulesPair }

/-- Options supplying `--llm-max-steps 9`, below the validated range. -/
def optsBadSteps : CLIOptions :=
  { optsBase with llmMaxSteps := some (JSNum.int 9) }

/-- An environment whose option parse yields `optsBadSteps`. -/
def envBadSteps : Env :=
  { envHappy with parseOptions := Except.ok optsBadSteps }

/-- Options supplying `--llm-max-steps 0`, a falsy parsed value. -/
def optsZeroSteps : CLIOptions :=
  { optsBase with llmMaxSteps := some (JSNum.int 0) }

/-- C8: the llm-max-tokens option is parsed by the CLI but never read when the
LLM configuration is built — two option records differing only in
`llmMaxTokens` yield the same `LLMConfig` (which by construction holds only
`baseUrl`, `apiKey`, `model` and `maxSteps`). -/
theorem C8_max_tokens_never_reaches_config (o : CLIOptions) (t u : Option JSNum) :
    mkLLMConfig { o with llmMaxTokens := t } = mkLLMConfig { o with llmMaxTokens := u } :=
  rfl

/-- C9: a falsy parsed llm-max-steps value — `NaN` from `parseInt` on a
non-numeric string, or `0` — is silently replaced by the default `50`
by `options.llmMaxSteps || 50`, and the resulting configuration passes the
range validation instead of the out-of-range input being rejected. -/
theorem C9_falsy_max_steps_silently_defaults (o : CLIOptions)
    (hf : o.llmMaxSteps = some JSNum.nan ∨ o.llmMaxSteps = some (JSNum.int 0)) :
    (mkLLMConfig o).maxSteps = 50 ∧ llmConfigParse (mkLLMConfig o) = Except.ok () := by
  have h50 : (mkLLMConfig o).maxSteps = 50 := by
    rcases hf with h | h <;> simp [mkLLMConfig, jsOr, h]
  refine ⟨h50, ?_⟩
  simp [llmConfigParse, h50]

theorem C9_falsy_max_steps_silently_defaults_witness :
    (mkLLMConfig optsZeroSteps).maxSteps = 50 ∧
      llmConfigParse (mkLLMConfig optsZeroSteps) = Except.ok () :=
  C9_falsy_max_steps_silently_defaults optsZeroSteps (Or.inr rfl)

/-- C1: the claim that an unrecovered error makes the process exit non-zero
with the error category and message printed to stderr FAILS on the code: the
`try`/`catch` in `run` and the `catch` of `handleAnalyzeCommand` are
commented out, so `handleError` — the only code that prints the categorized
message and calls `process.exit(1)` — is never invoked.  On a run whose
analysis rejects, the error propagates out of `run` with no stderr print and
no `process.exit` call. -/
theorem C1_error_never_reported :
    (KhodkarCLI.run envAnalyzeFails).2 =
        Except.error (JSError.llmAnalysis "model refused" none) ∧
      (KhodkarCLI.run envAnalyzeFails).1.countP isErrorReport = 0 := by
  constructor <;> rfl

/-- C2: the claim that `llmProcessor.cleanup()` and
`mcpManager.shutdownServers()` are released on every exit path FAILS on the
code: the `catch` block that would release them on failure (lines 157–163)
is commented out, so on a run whose `formatter.formatAndSave` rejects the
run ends in an error with neither release call ever made. -/
theorem C2_release_skipped_on_failure :
    (KhodkarCLI.run envSaveFails).2 =
        Except.error (JSError.generic "EACCES: permission denied") ∧
      (KhodkarCLI.run envSaveFails).1.countP isReleaseCall = 0 := by
  constructor <;> rfl

/-- C6: when the constructed LLM configuration fails schema validation, the
command throws an error whose message is `'LLM Configuration Error: '`
followed by the validator's message — so it begins with
`'LLM Configuration Error:'` — and the trace shows no MCP server
initialization and no analysis call. -/
theorem C6_config_error_before_init (env : Env) (o : CLIOptions) (m : String)
    (hp : env.parseOptions = Except.ok o)
    (hv : llmConfigParse (mkLLMConfig o) = Except.error m) :
    (handleAnalyzeCommand env).2 =
        Except.error (JSError.generic ("LLM Configuration Error: " ++ m)) ∧
      (handleAnalyzeCommand env).1.countP isInitServersCall = 0 ∧
      (handleAnalyzeCommand env).1.countP isAnalyzeCall = 0 := by
  unfold handleAnalyzeCommand
  rw [hp]
  simp [hv]

theorem C6_config_error_before_init_witness :
    (handleAnalyzeCommand envBadSteps).2 =
        Except.error (JSError.generic
          ("LLM Configuration Error: " ++ "maxSteps must be between 10 and 500")) ∧
      (handleAnalyzeCommand envBadSteps).1.countP isInitServersCall = 0 ∧
      (handleAnalyzeCommand envBadSteps).1.countP isAnalyzeCall = 0 :=
  C6_config_error_before_init envBadSteps optsBadSteps
    "maxSteps must be between 10 and 500" rfl rfl

/-- C3: whenever the analysis returns a rule sequence, the result handed to
the formatter is built from exactly that sequence with each summary count
recomputed from it: `totalRules` is its length, `highPriorityRules` counts
the rules whose priority is `'high'`, and `userFacingRules` counts the rules
whose `userFacing` is `true`. -/
theorem C3_summary_recomputed_from_rules (env : Env) (o : CLIOptions)
    (tools : List Tool) (rules : List BusinessRule)
    (hp : env.parseOptions = Except.ok o)
    (hv : llmConfigParse (mkLLMConfig o) = Except.ok ())
    (hi : env.initServers = Except.ok ())
    (hg : env.getTools = Except.ok tools)
    (ha : env.analyze tools = Except.ok rules) :
    Event.formatAndSaveCall (mkAnalysisResult env.now rules) o.output o.format
        ∈ (handleAnalyzeCommand env).1 ∧
      (mkAnalysisResult env.now rules).summary.totalRules = rules.length ∧
      (mkAnalysisResult env.now rules).summary.highPriorityRules
          = rules.countP (fun r => r.priority == "high") ∧
      (mkAnalysisResult env.now rules).summary.userFacingRules
          = rules.countP (fun r => r.userFacing) := by
  refine ⟨?_, ?_, ?_, ?_⟩
  · unfold handleAnalyzeCommand
    rw [hp]
    simp only [hv, hi, hg, ha]
    cases hb : env.formatAndSave (mkAnalysisResult env.now rules) o.output o.format with
    | error e => simp [hb]
    | ok u =>
      cases hc : env.cleanup with
      | error e => simp [hb, hc]
      | ok v =>
        cases hd : env.shutdownServers with
        | error e => simp [hb, hc, hd]
        | ok w => simp [hb, hc, hd]
  · rfl
  · simp [mkAnalysisResult, List.countP_eq_length_filter]
  · simp [mkAnalysisResult, List.countP_eq_length_filter]

theorem C3_summary_recomputed_from_rules_witness :
    Event.formatAndSaveCall (mkAnalysisResult envRules.now rulesPair)
        optsBase.output optsBase.format ∈ (handleAnalyzeCommand envRules).1 ∧
      (mkAnalysisResult envRules.now rulesPair).summary.totalRules = rulesPair.length ∧
      (mkAnalysisResult envRules.now rulesPair).summary.highPriorityRules
          = rulesPair.countP (fun r => r.priority == "high") ∧
      (mkAnalysisResult envRules.now rulesPair).summary.userFacingRules
          = rulesPair.countP (fun r => r.userFacing) :=
  C3_summary_recomputed_from_rules envRules optsBase [] rulesPair rfl rfl
    rfl rfl rfl

/-- On every run that passes option parsing and configuration validation, the
`LLMProcessor` is constructed with the configuration built by
`mkLLMConfig` — whatever the later collaborators do. -/
theorem createProcessor_mem (env : Env) (o : CLIOptions)
    (hp : env.parseOptions = Except.ok o)
    (hv : llmConfigParse (mkLLMConfig o) = Except.ok ()) :
    Event.createProcessor (mkLLMConfig o) ∈ (handleAnalyzeCommand env).1 := by
  unfold handleAnalyzeCommand
  rw [hp]
  simp only [hv]
  cases h1 : env.initServers with
  | error e => simp [h1]
  | ok u =>
    cases h2 : env.getTools with
    | error e => simp [h1, h2]
    | ok tools =>
      cases h3 : env.analyze tools with
      | error e => simp [h1, h2, h3]
      | ok rules =>
        cases h4 : env.formatAndSave (mkAnalysisResult env.now rules) o.output o.format with
        | error e => simp [h1, h2, h3, h4]
        | ok v =>
          cases h5 : env.cleanup with
          | error e => simp [h1, h2, h3, h4, h5]
          | ok w =>
            cases h6 : env.shutdownServers with
            | error e => simp [h1, h2, h3, h4, h5, h6]
            | ok z => simp [h1, h2, h3, h4, h5, h6]

/-- C5: when llm-max-steps is not supplied, the configuration built and
passed to the `LLMProcessor` constructor has `maxSteps = 50`. -/
theorem C5_default_max_steps_is_50 (env : Env) (o : CLIOptions)
    (hp : env.parseOptions = Except.ok o)
    (hn : o.llmMaxSteps = none)
    (hv : llmConfigParse (mkLLMConfig o) = Except.ok ()) :
    (mkLLMConfig o).maxSteps = 50 ∧
      Event.createProcessor (mkLLMConfig o) ∈ (handleAnalyzeCommand env).1 :=
  ⟨by simp [mkLLMConfig, jsOr, hn], createProcessor_mem env o hp hv⟩

theorem C5_default_max_steps_is_50_witness :
    (mkLLMConfig optsBase).maxSteps = 50 ∧
      Event.createProcessor (mkLLMConfig optsBase) ∈ (handleAnalyzeCommand envHappy).1 :=
  C5_default_max_steps_is_50 envHappy optsBase rfl rfl rfl

/-- C4: when MCP server initialization rejects, the run's trace contains no
`llmProcessor.analyze` call and the run's outcome is exactly the discovery
error, which carries the failing server's identifier. -/
theorem C4_discovery_failure_before_model_call (env : Env) (o : CLIOptions)
    (e : JSError) (srv : String)
    (hp : env.parseOptions = Except.ok o)
    (hv : llmConfigParse (mkLLMConfig o) = Except.ok ())
    (hi : env.initServers = Except.error e)
    (hs : e.serverName = some srv) :
    (handleAnalyzeCommand env).1.countP isAnalyzeCall = 0 ∧
      (handleAnalyzeCommand env).2 = Except.error e ∧
      e.serverName = some srv := by
  refine ⟨?_, ?_, hs⟩
  · unfold handleAnalyzeCommand
    rw [hp]
    simp only [hv, hi]
    cases hb : o.verbose <;>
      simp [hb, isAnalyzeCall, List.countP_append, List.countP_cons]
  · unfold handleAnalyzeCommand
    rw [hp]
    simp [hv, hi]

theorem C4_discovery_failure_before_model_call_witness :
    (handleAnalyzeCommand envDiscoveryFails).1.countP isAnalyzeCall = 0 ∧
      (handleAnalyzeCommand envDiscoveryFails).2 =
        Except.error (JSError.mcpServer "connection refused" (some "filesystem")) ∧
      (JSError.mcpServer "connection refused" (some "filesystem")).serverName =
        some "filesystem" :=
  C4_discovery_failure_before_model_call envDiscoveryFails optsBase
    (JSError.mcpServer "connection refused" (some "filesystem")) "filesystem"
    rfl rfl rfl rfl

/-- C7: on a run that reaches analysis, `mcpManager.getTools` is called
exactly once, and the tool list it returned is the very argument of the
`llmProcessor.analyze` call — tools are not re-discovered. -/
theorem C7_tools_discovered_once (env : Env) (o : CLIOptions) (tools : List Tool)
    (hp : env.parseOptions = Except.ok o)
    (hv : llmConfigParse (mkLLMConfig o) = Except.ok ())
    (hi : env.initServers = Except.ok ())
    (hg : env.getTools = Except.ok tools) :
    (handleAnalyzeCommand env).1.countP isGetToolsCall = 1 ∧
      Event.analyzeCall tools ∈ (handleAnalyzeCommand env).1 := by
  unfold handleAnalyzeCommand
  rw [hp]
  simp only [hv, hi, hg]
  cases h3 : env.analyze tools with
  | error e =>
    cases hb : o.verbose <;>
      simp [h3, hb, isGetToolsCall, List.countP_append, List.countP_cons]
  | ok rules =>
    cases h4 : env.formatAndSave (mkAnalysisResult env.now rules) o.output o.format with
    | error e =>
      cases hb : o.verbose <;>
        simp [h3, h4, hb, isGetToolsCall, List.countP_append, List.countP_cons]
    | ok v =>
      cases h5 : env.cleanup with
      | error e =>
        cases hb : o.verbose <;>
          simp [h3, h4, h5, hb, isGetToolsCall, List.countP_append, List.countP_cons]
      | ok w =>
        cases h6 : env.shutdownServers with
        | error e =>
          cases hb : o.verbose <;>
            simp [h3, h4, h5, h6, hb, isGetToolsCall, List.countP_append, List.countP_cons]
        | ok z =>
          cases hb : o.verbose <;>
            simp [h3, h4, h5, h6, hb, isGetToolsCall, List.countP_append, List.countP_cons]

theorem C7_tools_discovered_once_witness :
    (handleAnalyzeCommand envHappy).1.countP isGetToolsCall = 1 ∧
      Event.analyzeCall [] ∈ (handleAnalyzeCommand envHappy).1 :=
  C7_tools_discovered_once envHappy optsBase [] rfl rfl rfl rfl

/-- C10: when the format option is omitted, commander's declared default
makes `options.format = 'markdown'`, and that is the format the formatter is
invoked with. -/
theorem C10_format_defaults_to_markdown (env : Env) (o : CLIOptions)
    (tools : List Tool) (rules : List BusinessRule)
    (hp : env.parseOptions = Except.ok o)
    (hfmt : o.format = formatOrDefault none)
    (hv : llmConfigParse (mkLLMConfig o) = Except.ok ())
    (hi : env.initServers = Except.ok ())
    (hg : env.getTools = Except.ok tools)
    (ha : env.analyze tools = Except.ok rules) :
    Event.formatAndSaveCall (mkAnalysisResult env.now rules) o.output "markdown"
        ∈ (handleAnalyzeCommand env).1 := by
  have hm : o.format = "markdown" := hfmt
  unfold handleAnalyzeCommand
  rw [hp]
  simp only [hv, hi, hg, ha, hm]
  cases h4 : env.formatAndSave (mkAnalysisResult env.now rules) o.output "markdown" with
  | error e => simp [h4]
  | ok v =>
    cases h5 : env.cleanup with
    | error e => simp [h4, h5]
    | ok w =>
      cases h6 : env.shutdownServers with
      | error e => simp [h4, h5, h6]
      | ok z => simp [h4, h5, h6]

theorem C10_format_defaults_to_markdown_witness :
    Event.formatAndSaveCall (mkAnalysisResult envRules.now rulesPair)
        optsBase.output "markdown" ∈ (handleAnalyzeCommand envRules).1 :=
  C10_format_defaults_to_markdown envRules optsBase [] rulesPair rfl rfl rfl rfl
    rfl rfl
